import Mathlib

/-!
Shallow embedding of the condition-evaluation pipeline of the enhanced stock
screener (src/complete_screening_engine.py, src/technical_calculator.py,
src/scoring_system.py, src/enhanced_data_fetcher.py,
src/real_data_integration_final.py).

Modelling choices, applied uniformly:
* Python floats are modelled as exact rationals (`ℚ`).
* A pandas DataFrame is modelled as a `List` of row records; `df is None` is
  modelled by `Option`, `df.empty` by the empty list.  Price frames produced
  by `EnhancedDataFetcher.get_stock_price` always carry the columns
  `open/max/min/close/Trading_Volume`, so the engine's `'Trading_Volume' in
  price_df.columns` guards are `True` and are not modelled separately;
  institutional and margin frames have data-dependent column sets, so column
  presence is an explicit boolean field of the frame model.
* Network-backed methods of `RealDataIntegrationFinal` that the engine calls
  (`get_trust_holding_percentage`, `get_trust_holding_change`, `get_real_eps`,
  `get_real_roe`, `get_real_dividend_yield`, `is_warning_or_disposition`) are
  modelled as fields of an explicit environment record `Env`: the engine is a
  pure function of the snapshot, the configuration and that environment.
* Python `{x:.2f}` style float formatting is modelled by decimal rendering of
  the exact rational with round-half-up; the two renderings agree on every
  concrete value appearing in a theorem below.
-/

/-- `series.iloc[-1]`, used only under non-emptiness guards (default 0). -/
def lastD (l : List ℚ) : ℚ := l.getLastD 0

/-- `series.iloc[-2]`, used only under length guards (default 0). -/
def secondLastD (l : List ℚ) : ℚ := l.reverse.getD 1 0

/-- `series.tail(n)`: the last `n` elements. -/
def takeRight (l : List ℚ) (n : ℕ) : List ℚ := l.drop (l.length - n)

/-- pandas `Series.mean` (empty series never reaches a comparison that its
NaN result would win, see the call sites). -/
def meanQ (l : List ℚ) : ℚ := l.sum / l.length

/-- pandas `Series.max` of a non-empty series (default 0). -/
def maxD (l : List ℚ) : ℚ :=
  match l with
  | [] => 0
  | x :: xs => xs.foldl max x

/-- pandas `Series.min` of a non-empty series (default 0). -/
def minD (l : List ℚ) : ℚ :=
  match l with
  | [] => 0
  | x :: xs => xs.foldl min x

/-- The trailing window ending at index `i` of width `period`, as read by
`rolling(window=period)` (only evaluated when `i + 1 ≥ period`). -/
def windowAt (l : List ℚ) (period i : ℕ) : List ℚ :=
  (l.take (i + 1)).drop (i + 1 - period)

/-- `s.ewm(com=2, adjust=False).mean()` / `s.ewm(alpha=1/3, adjust=False).mean()`:
`y₀ = x₀`, `yᵢ = (2/3)·yᵢ₋₁ + (1/3)·xᵢ`. -/
def ewmThirdAux (prev : ℚ) : List ℚ → List ℚ
  | [] => []
  | x :: xs =>
      let y := (2 / 3) * prev + (1 / 3) * x
      y :: ewmThirdAux y xs

def ewmThird : List ℚ → List ℚ
  | [] => []
  | x :: xs => x :: ewmThirdAux x xs

/-- One row of a price DataFrame as produced by
`EnhancedDataFetcher.get_stock_price` (columns `max`/`min`/`close`/
`Trading_Volume`; `open` and `date` are never read by the engine). -/
structure PriceBar where
  max : ℚ
  min : ℚ
  close : ℚ
  Trading_Volume : ℚ
deriving DecidableEq, Repr

def closes (rows : List PriceBar) : List ℚ := rows.map (·.close)
def highs (rows : List PriceBar) : List ℚ := rows.map (·.max)
def lows (rows : List PriceBar) : List ℚ := rows.map (·.min)
def vols (rows : List PriceBar) : List ℚ := rows.map (·.Trading_Volume)

/-! ## enhanced_data_fetcher.py : EPS resolution -/

/-- The static per-instrument default table `large_caps` of
`EnhancedDataFetcher.get_default_eps`. -/
def large_caps_eps : List (String × ℚ) :=
  [("2330", 39.2), ("2454", 72.5), ("2317", 10.5), ("2308", 11.2),
   ("2382", 4.8), ("2303", 2.8), ("2412", 5.2), ("2886", 2.1),
   ("2891", 2.5), ("1301", 3.8)]

/-- `EnhancedDataFetcher.get_default_eps`: the table value when the id is a
key of `large_caps`, else the generic default 2.5. -/
def get_default_eps (stock_id : String) : ℚ :=
  match large_caps_eps.find? (fun e => e.1 == stock_id) with
  | some e => e.2
  | none => 2.5

/-- `EnhancedDataFetcher.get_eps_guaranteed`.  The two provider calls
(`get_eps_from_twse`, `get_eps_from_finmind`) are network-backed and modelled
by their returned values (each returns its fetched value, or 0.0 on any
internal failure); a provider value is accepted only when `> 0`, otherwise
the chain advances, ending at `get_default_eps`.  The `except` branch of the
Python also returns `get_default_eps stock_id`, so the function is total. -/
def get_eps_guaranteed (eps_twse eps_finmind : ℚ) (stock_id : String) : ℚ :=
  if eps_twse > 0 then eps_twse
  else if eps_finmind > 0 then eps_finmind
  else get_default_eps stock_id

/-! ## Display-string formatting (Python f-string models) -/

/-- Left-pad a digit string with zeros to width `n`. -/
def padZeros (s : String) (n : ℕ) : String :=
  String.mk (List.replicate (n - s.length) '0') ++ s

/-- Model of Python `f"{q:.prec f}"`: fixed-point rendering with `prec`
decimals, round half up on the exact rational magnitude (a "-0.00"-style
negative-zero sign is not modelled; no theorem depends on it). -/
def fmtFixed (prec : ℕ) (q : ℚ) : String :=
  let n : ℕ := (⌊|q| * (10 : ℚ) ^ prec + 1 / 2⌋).toNat
  let ip : ℕ := n / 10 ^ prec
  let fp : ℕ := n % 10 ^ prec
  (if q < 0 ∧ n ≠ 0 then "-" else "") ++ toString ip ++
    (if prec = 0 then "" else "." ++ padZeros (toString fp) prec)

/-- Decimal digits of the fraction `num / den` (`num < den`), truncated at
`fuel` places, trailing zeros dropped with the remainder. -/
def fracDigits : ℕ → ℕ → ℕ → String
  | 0, _, _ => ""
  | fuel + 1, num, den =>
      if num = 0 then ""
      else toString (num * 10 / den) ++ fracDigits fuel (num * 10 % den) den

/-- Model of Python `f"{q}"` for a configuration number: integers render with
no decimal point, other rationals as a (possibly truncated) decimal. -/
def fmtPy (q : ℚ) : String :=
  if q.den = 1 then toString q.num
  else
    (if q < 0 then "-" else "") ++ toString (q.num.natAbs / q.den) ++ "." ++
      fracDigits 12 (q.num.natAbs % q.den) q.den

/-! ## complete_screening_engine.py : per-condition checkers -/

/-- `CompleteScreeningEngine.check_volume_surge_with_value`: latest volume
over the mean of the previous `days` volumes (`tail(days+1).iloc[:-1]`),
passing when the ratio is ≥ the threshold; `None`, insufficient history or a
non-positive average yields `(False, 0.0)`. -/
def check_volume_surge_with_value (price_df : Option (List PriceBar))
    (threshold : ℚ) (days : ℕ) : Bool × ℚ :=
  match price_df with
  | none => (false, 0)
  | some rows =>
      if rows.length < days + 1 then (false, 0)
      else
        let avg_volume := meanQ ((takeRight (vols rows) (days + 1)).dropLast)
        let latest_volume := lastD (vols rows)
        if avg_volume > 0 then
          (decide (latest_volume / avg_volume ≥ threshold), latest_volume / avg_volume)
        else (false, 0)

/-- `CompleteScreeningEngine.check_min_volume_with_value`. -/
def check_min_volume_with_value (price_df : Option (List PriceBar))
    (threshold : ℚ) : Bool × ℚ :=
  match price_df with
  | none => (false, 0)
  | some rows =>
      if rows.length = 0 then (false, 0)
      else
        let latest_volume := lastD (vols rows)
        (decide (latest_volume ≥ threshold * 1000), latest_volume)

/-- The RSV series of `check_kd_golden_with_value` (window `period`):
`rolling(period)` yields NaN for the first `period - 1` indices, turned into
50 by `fillna(50)`.  pandas produces ±∞ when the window's high equals its low
with close strictly between them; that degenerate case (excluded by the
nondegeneracy hypothesis of the KD theorems) is rendered here as 50, which is
also what `fillna(50)` gives when close equals the collapsed window. -/
def rsvList (period : ℕ) (rows : List PriceBar) : List ℚ :=
  rows.enum.map fun ie =>
    if ie.1 + 1 < period then 50
    else
      let h := maxD (windowAt (highs rows) period ie.1)
      let l := minD (windowAt (lows rows) period ie.1)
      if h = l then 50 else (ie.2.close - l) / (h - l) * 100

/-- The K line computed inline by the engine: `rsv.ewm(com=2, adjust=False)`. -/
def engineK (period : ℕ) (rows : List PriceBar) : List ℚ :=
  ewmThird (rsvList period rows)

/-- The D line: `k.ewm(com=2, adjust=False)`. -/
def engineD (period : ℕ) (rows : List PriceBar) : List ℚ :=
  ewmThird (engineK period rows)

/-- `CompleteScreeningEngine.check_kd_golden_with_value` (daily, 9-bar
window): golden cross = previous K ≤ previous D and current K > current D —
the engine has no `K < 80` overbought guard (unlike
`TechnicalCalculator.check_golden_cross`, which the engine does not call). -/
def check_kd_golden_with_value (price_df : Option (List PriceBar)) :
    Bool × Option ℚ × Option ℚ :=
  match price_df with
  | none => (false, none, none)
  | some rows =>
      if rows.length < 9 then (false, none, none)
      else
        let k := engineK 9 rows
        let d := engineD 9 rows
        if 2 ≤ k.length ∧ 2 ≤ d.length then
          let curr_k := lastD k
          let curr_d := lastD d
          let prev_k := secondLastD k
          let prev_d := secondLastD d
          (decide (prev_k ≤ prev_d) && decide (curr_k > curr_d),
            some curr_k, some curr_d)
        else (false, none, none)

/-- `CompleteScreeningEngine.check_monthly_kd_golden_with_value` (20-bar
window, same crossover predicate). -/
def check_monthly_kd_golden_with_value (price_df : Option (List PriceBar)) :
    Bool × Option ℚ × Option ℚ :=
  match price_df with
  | none => (false, none, none)
  | some rows =>
      if rows.length < 20 then (false, none, none)
      else
        let k := engineK 20 rows
        let d := engineD 20 rows
        if 2 ≤ k.length ∧ 2 ≤ d.length then
          let curr_k := lastD k
          let curr_d := lastD d
          let prev_k := secondLastD k
          let prev_d := secondLastD d
          (decide (prev_k ≤ prev_d) && decide (curr_k > curr_d),
            some curr_k, some curr_d)
        else (false, none, none)

/-- `CompleteScreeningEngine.check_above_ma20_with_value`. -/
def check_above_ma20_with_value (price_df : Option (List PriceBar)) :
    Bool × Option ℚ × Option ℚ :=
  match price_df with
  | none => (false, none, none)
  | some rows =>
      if rows.length < 20 then (false, none, none)
      else
        let ma20 := meanQ (takeRight (closes rows) 20)
        let latest_price := lastD (closes rows)
        (decide (latest_price > ma20), some latest_price, some ma20)

/-- `CompleteScreeningEngine.check_break_60d_high_with_value`:
`price_df['max'].tail(60).max()` — the rolling maximum is taken over the
last 60 bars *including* the current one. -/
def check_break_60d_high_with_value (price_df : Option (List PriceBar)) :
    Bool × Option ℚ × Option ℚ :=
  match price_df with
  | none => (false, none, none)
  | some rows =>
      if rows.length < 60 then (false, none, none)
      else
        let high_60d := maxD (takeRight (highs rows) 60)
        let latest_price := lastD (closes rows)
        (decide (latest_price ≥ high_60d), some latest_price, some high_60d)

/-! ## Institutional / margin frames and the data environment -/

/-- One row of an institutional-flow DataFrame; a field is meaningful only
when the matching column flag of `InstDF` is set. -/
structure InstRow where
  trust_net : ℚ := 0
  Investment_Trust_buy : ℚ := 0
  Investment_Trust_sell : ℚ := 0
  Investment_Trust_Buy : ℚ := 0
  Investment_Trust_Sell : ℚ := 0
  Foreign_Investor_Buy : ℚ := 0
  Foreign_Investor_Sell : ℚ := 0
  Dealer_Buy : ℚ := 0
  Dealer_Sell : ℚ := 0
deriving Repr

/-- Institutional-flow DataFrame: rows plus column-presence flags for every
column the engine tests with `in inst_df.columns`. -/
structure InstDF where
  rows : List InstRow
  hasTrustNet : Bool := false
  hasITBuyLower : Bool := false
  hasITSellLower : Bool := false
  hasITBuy : Bool := false
  hasITSell : Bool := false
  hasFIBuy : Bool := false
  hasFISell : Bool := false
  hasDealerBuy : Bool := false
  hasDealerSell : Bool := false
deriving Repr

/-- One row of a margin DataFrame. -/
structure MarginRow where
  MarginPurchaseTotalBalance : ℚ := 0
  MarginPurchaseLimit : ℚ := 0
deriving Repr

/-- Margin DataFrame with column-presence flags. -/
structure MarginDF where
  rows : List MarginRow
  hasBalance : Bool := false
  hasLimit : Bool := false
deriving Repr

/-- The network-backed methods of `RealDataIntegrationFinal` consumed by the
engine, as an explicit environment (arguments mirror the Python call sites;
an `Option String` argument models a possibly-`None` stock id being passed
through). -/
structure Env where
  get_trust_holding_percentage : Option String → ℚ
  get_trust_holding_change : Option String → ℚ
  get_real_eps : String → ℚ
  get_real_roe : String → ℚ
  get_real_dividend_yield : String → Option ℚ → ℚ
  is_warning : String → Bool
  is_disposition : String → Bool

/-! ## Institutional / margin / fundamental checkers -/

/-- `CompleteScreeningEngine.check_trust_buy_with_value`. -/
def check_trust_buy_with_value (inst_df : Option InstDF) (threshold : ℚ) :
    Bool × ℚ :=
  match inst_df with
  | none => (false, 0)
  | some df =>
      if df.rows.length = 0 then (false, 0)
      else
        let latest := df.rows.getLastD {}
        let net_buy :=
          if df.hasTrustNet then latest.trust_net
          else if df.hasITBuyLower ∧ df.hasITSellLower then
            latest.Investment_Trust_buy - latest.Investment_Trust_sell
          else 0
        let net_lots := net_buy / 1000
        (decide (net_lots ≥ threshold), net_lots)

/-- `CompleteScreeningEngine.check_trust_pct_with_value`.  `attrs_sid` is
`inst_df.attrs.get('stock_id')` (set by `check_all_conditions` when the
frame exists); when it is absent the method falls back to
`self._current_stock_id`, an attribute that `check_all_conditions` always
sets (possibly to `None`), so the final `return False, 0` of the Python is
unreachable from the evaluation flow and is not modelled. -/
def check_trust_pct_with_value (env : Env) (attrs_sid cur_sid : Option String)
    (threshold : ℚ) : Bool × ℚ :=
  match attrs_sid with
  | some sid =>
      let pct := env.get_trust_holding_percentage (some sid)
      (decide (pct ≥ threshold), pct)
  | none =>
      let pct := env.get_trust_holding_percentage cur_sid
      (decide (pct ≥ threshold), pct)

/-- `CompleteScreeningEngine.check_trust_5d_with_value`. -/
def check_trust_5d_with_value (inst_df : Option InstDF) (threshold : ℚ) :
    Bool × ℚ :=
  match inst_df with
  | none => (false, 0)
  | some df =>
      if df.rows.length < 5 then (false, 0)
      else
        let recent := df.rows.drop (df.rows.length - 5)
        let total_buy :=
          if df.hasITBuy then (recent.map (·.Investment_Trust_Buy)).sum else 0
        let total_sell :=
          if df.hasITSell then (recent.map (·.Investment_Trust_Sell)).sum else 0
        let net_buy := (total_buy - total_sell) / 1000
        (decide (net_buy ≥ threshold), net_buy)

/-- `CompleteScreeningEngine.check_trust_holding_with_value`.  The attribute
`self._trust_holding` is set unconditionally by `check_all_conditions`
(line 48) before any checker runs, so the `hasattr` branch is always taken
there; the integrator fallback (`get_trust_holding_change`) is kept for the
`none` case.  Note the comparison is `holding >= threshold` — a floor. -/
def check_trust_holding_with_value (env : Env) (attr_trust : Option ℚ)
    (attrs_sid cur_sid : Option String) (threshold : ℚ) : Bool × ℚ :=
  match attr_trust with
  | some holding => (decide (holding ≥ threshold), holding)
  | none =>
      match attrs_sid with
      | some sid =>
          let change := env.get_trust_holding_change (some sid)
          (decide (change ≥ threshold), change)
      | none =>
          let change := env.get_trust_holding_change cur_sid
          (decide (change ≥ threshold), change)

/-- `CompleteScreeningEngine.check_inst_5d_with_value`. -/
def check_inst_5d_with_value (inst_df : Option InstDF) (threshold : ℚ) :
    Bool × ℚ :=
  match inst_df with
  | none => (false, 0)
  | some df =>
      if df.rows.length < 5 then (false, 0)
      else
        let recent := df.rows.drop (df.rows.length - 5)
        let total_buy :=
          (if df.hasFIBuy then (recent.map (·.Foreign_Investor_Buy)).sum else 0) +
          (if df.hasITBuy then (recent.map (·.Investment_Trust_Buy)).sum else 0) +
          (if df.hasDealerBuy then (recent.map (·.Dealer_Buy)).sum else 0)
        let total_sell :=
          (if df.hasFISell then (recent.map (·.Foreign_Investor_Sell)).sum else 0) +
          (if df.hasITSell then (recent.map (·.Investment_Trust_Sell)).sum else 0) +
          (if df.hasDealerSell then (recent.map (·.Dealer_Sell)).sum else 0)
        let net_buy := (total_buy - total_sell) / 1000
        (decide (net_buy ≥ threshold), net_buy)

/-- `CompleteScreeningEngine.check_margin_ratio_with_value`. -/
def check_margin_ratio_with_value (margin_df : Option MarginDF)
    (threshold : ℚ) : Bool × ℚ :=
  match margin_df with
  | none => (false, 0)
  | some df =>
      if df.rows.length = 0 then (false, 0)
      else
        let latest := df.rows.getLastD {}
        if df.hasBalance ∧ df.hasLimit then
          let balance := latest.MarginPurchaseTotalBalance
          let lim := latest.MarginPurchaseLimit
          if lim > 0 then
            let ratio := balance / lim * 100
            (decide (ratio < threshold), ratio)
          else (false, 0)
        else (false, 0)

/-- `CompleteScreeningEngine.check_margin_5d_with_value`. -/
def check_margin_5d_with_value (margin_df : Option MarginDF) (threshold : ℚ) :
    Bool × ℚ :=
  match margin_df with
  | none => (false, 0)
  | some df =>
      if df.rows.length < 5 then (false, 0)
      else
        if df.hasBalance then
          let current :=
            (df.rows.getLastD {}).MarginPurchaseTotalBalance
          let past_5d :=
            (df.rows.getD (df.rows.length - 5) {}).MarginPurchaseTotalBalance
          let change := (current - past_5d) / 1000
          (decide (change ≥ threshold), change)
        else (false, 0)

/-! ## Snapshot, fundamentals and exclusion checkers -/

/-- The `stock_data` dictionary handed to `check_all_conditions` (only the
keys the engine reads). -/
structure StockData where
  stock_id : Option String := none
  type : Option String := none
  eps : Option ℚ := none
  roe : Option ℚ := none
  trust_holding : Option ℚ := none
  price : Option (List PriceBar) := none
  institutional : Option InstDF := none
  margin : Option MarginDF := none

/-- `CompleteScreeningEngine.check_eps_with_value`: the snapshot value wins
when present, else the integrator, else `(False, 0)`. -/
def check_eps_with_value (env : Env) (sd : StockData) (threshold : ℚ) :
    Bool × ℚ :=
  match sd.eps with
  | some eps => (decide (eps > threshold), eps)
  | none =>
      match sd.stock_id with
      | some sid =>
          let eps := env.get_real_eps sid
          (decide (eps > threshold), eps)
      | none => (false, 0)

/-- `CompleteScreeningEngine.check_roe_with_value`. -/
def check_roe_with_value (env : Env) (sd : StockData) (threshold : ℚ) :
    Bool × ℚ :=
  match sd.roe with
  | some roe => (decide (roe > threshold), roe)
  | none =>
      match sd.stock_id with
      | some sid =>
          let roe := env.get_real_roe sid
          (decide (roe > threshold), roe)
      | none => (false, 0)

/-- `CompleteScreeningEngine.check_yield_with_value`. -/
def check_yield_with_value (env : Env) (sd : StockData)
    (price_df : Option (List PriceBar)) (threshold : ℚ) : Bool × ℚ :=
  match sd.stock_id with
  | some sid =>
      let current_price : Option ℚ :=
        match price_df with
        | some rows => if rows.length = 0 then none else some (lastD (closes rows))
        | none => none
      let yield_rate := env.get_real_dividend_yield sid current_price
      (decide (yield_rate > threshold), yield_rate)
  | none => (false, 0)

/-- `CompleteScreeningEngine.check_daily_change_with_value`. -/
def check_daily_change_with_value (price_df : Option (List PriceBar))
    (threshold : ℚ) : Bool × ℚ :=
  match price_df with
  | none => (false, 0)
  | some rows =>
      if rows.length < 2 then (false, 0)
      else
        let latest_close := lastD (closes rows)
        let prev_close := secondLastD (closes rows)
        if prev_close > 0 then
          let change_pct := (latest_close - prev_close) / prev_close * 100
          (decide (|change_pct| ≤ threshold), change_pct)
        else (false, 0)

/-- `CompleteScreeningEngine.check_5d_change_with_value`. -/
def check_5d_change_with_value (price_df : Option (List PriceBar))
    (threshold : ℚ) : Bool × ℚ :=
  match price_df with
  | none => (false, 0)
  | some rows =>
      if rows.length < 5 then (false, 0)
      else
        let latest_close := lastD (closes rows)
        let close_5d_ago := (closes rows).getD (rows.length - 5) 0
        if close_5d_ago > 0 then
          let change_pct := (latest_close - close_5d_ago) / close_5d_ago * 100
          (decide (|change_pct| ≤ threshold), change_pct)
        else (false, 0)

/-- `CompleteScreeningEngine.check_not_warning`. -/
def check_not_warning (env : Env) (sd : StockData) : Bool :=
  match sd.stock_id with
  | some sid => !env.is_warning sid
  | none => true

/-- `CompleteScreeningEngine.check_not_disposition`. -/
def check_not_disposition (env : Env) (sd : StockData) : Bool :=
  match sd.stock_id with
  | some sid => !env.is_disposition sid
  | none => true

/-! ## Consecutive limit-up -/

/-- The common scan of both limit-up loops, over `(current, previous)` bar
pairs ordered from the latest bar backwards: a qualifying bar adds one and
continues, a non-qualifying bar with positive previous close breaks, a
non-positive previous close neither adds nor breaks. -/
def limitUpScan (thr : ℚ) : List (PriceBar × PriceBar) → ℕ
  | [] => 0
  | (curr, prev) :: rest =>
      if prev.close > 0 then
        if (curr.close - prev.close) / prev.close * 100 ≥ thr ∧
            |curr.close - curr.max| < prev.close * (1 / 1000) then
          limitUpScan thr rest + 1
        else 0
      else limitUpScan thr rest

/-- `RealDataIntegrationFinal.check_consecutive_limit_up`: price limit 5%
for disposition-flagged instruments, 10% otherwise, minus a 0.1pp tolerance;
fewer than `days + 1` bars returns `(False, 0)` — i.e. the "not consecutive
limit-up" verdict is *False* there. -/
def check_consecutive_limit_up (env : Env)
    (price_df : Option (List PriceBar)) (stock_id : String) (days : ℕ) :
    Bool × ℕ :=
  match price_df with
  | none => (false, 0)
  | some rows =>
      if rows.length < days + 1 then (false, 0)
      else
        let limit : ℚ := if env.is_disposition stock_id then 5 else 10
        let limit_threshold := limit - 1 / 10
        let r := rows.reverse
        let cnt := limitUpScan limit_threshold
          ((r.zip r.tail).take (min days (rows.length - 1)))
        (decide (cnt < days), cnt)

/-- The `(current, previous)` pairs read by the engine's fallback loop
(`for i in range(1, min(days + 1, len(price_df)))`; at the oldest bar the
previous close falls back to the current close). -/
def fallbackPairs (rows : List PriceBar) (days : ℕ) : List (PriceBar × PriceBar) :=
  let r := rows.reverse
  ((List.range (min (days + 1) rows.length)).drop 1).map fun i =>
    let curr := r.getD (i - 1) ⟨0, 0, 0, 0⟩
    let prev := if i < rows.length - 1 then r.getD i ⟨0, 0, 0, 0⟩ else curr
    (curr, prev)

/-- `CompleteScreeningEngine.check_not_limit_up_with_value`: with fewer bars
than `days` the condition *passes* (`(True, 0)`) — this exclusion rule fails
open on missing data; otherwise the integrator decides when a stock id is
set, else the 9.9%-threshold fallback loop. -/
def check_not_limit_up_with_value (env : Env)
    (price_df : Option (List PriceBar)) (cur_sid : Option String) (days : ℕ) :
    Bool × ℕ :=
  match price_df with
  | none => (true, 0)
  | some rows =>
      if rows.length = 0 ∨ rows.length < days then (true, 0)
      else
        match cur_sid with
        | some sid => check_consecutive_limit_up env (some rows) sid days
        | none =>
            let cnt := limitUpScan (99 / 10) (fallbackPairs rows days)
            (decide (cnt < days), cnt)

/-! ## Configuration and the evaluator -/

/-- A nested `{'enabled': ..., 'value': ...}` configuration entry; an absent
key behaves like `enabled = False`. -/
structure CondParam where
  enabled : Bool := false
  value : ℚ := 0

/-- The `exclude_limit_up` entry (`days` defaults to 3 via `.get`). -/
structure LimitUpParam where
  enabled : Bool := false
  days : ℕ := 3

/-- The `parameters` dictionary of `CompleteScreeningEngine` (every key the
engine reads). -/
structure Params where
  market_twse : Bool := false
  market_otc : Bool := false
  volume_surge1 : CondParam := {}
  volume_surge2 : CondParam := {}
  volume_surge3 : CondParam := {}
  min_volume : CondParam := {}
  daily_kd_golden : Bool := false
  monthly_kd_golden : Bool := false
  above_ma20 : Bool := false
  break_60d_high : Bool := false
  trust_buy : CondParam := {}
  trust_pct : CondParam := {}
  trust_5d : CondParam := {}
  trust_holding : CondParam := {}
  inst_5d : CondParam := {}
  margin_ratio : CondParam := {}
  margin_5d : CondParam := {}
  eps : CondParam := {}
  roe : CondParam := {}
  yield : CondParam := {}
  daily_change : CondParam := {}
  change_5d : CondParam := {}
  exclude_warning : Bool := false
  exclude_disposition : Bool := false
  exclude_limit_up : LimitUpParam := {}
  min_conditions_to_pass : ℕ := 3

/-- The dictionary returned by `check_all_conditions`: the per-condition
boolean entries (`verdicts`, in insertion order), and the three bookkeeping
entries `matched_count`, `passed` and `values` that the Python inserts into
the same dictionary *after* computing `matched_count` over the condition
entries alone. -/
structure CheckResult where
  verdicts : List (String × Bool)
  matched_count : ℕ
  passed : Bool
  values : List (String × String)
deriving DecidableEq, Repr

/-- One `if <enabled>: results[k] = ...; values[k] = ...` block. -/
def flagEntry (c : Bool) (e : String × Bool × String) :
    List (String × Bool × String) :=
  if c then [e] else []

/-- The condition blocks of `CompleteScreeningEngine.check_all_conditions`,
block for block in source order, as `(key, passed, display)` entries.
`attrs_sid` reflects that the engine stamps
`inst_df.attrs['stock_id'] = self._current_stock_id` whenever the
institutional frame exists. -/
def check_all_entries (env : Env) (p : Params) (sd : StockData) :
    List (String × Bool × String) :=
  let cur_sid := sd.stock_id
  let trust_holding := sd.trust_holding.getD 0
  let price_df := sd.price
  let inst_df := sd.institutional
  let margin_df := sd.margin
  let attrs_sid : Option String :=
    match inst_df with
    | some _ => cur_sid
    | none => none
  let stype := sd.type.getD "unknown"
  flagEntry p.market_twse ("market_twse", stype == "twse", "市場: " ++ stype) ++
    flagEntry p.market_otc ("market_otc", stype == "otc", "市場: " ++ stype) ++
    (let thr := p.volume_surge1.value
     let r := check_volume_surge_with_value price_df thr 5
     flagEntry p.volume_surge1.enabled ("volume_surge_1_5x", r.1,
       "爆量倍數: " ++ fmtFixed 2 r.2 ++ "x (門檻: " ++ fmtPy thr ++ "x)")) ++
    (let thr := p.volume_surge2.value
     let r := check_volume_surge_with_value price_df thr 20
     flagEntry p.volume_surge2.enabled ("volume_surge_20d_3x", r.1,
       "20日爆量: " ++ fmtFixed 2 r.2 ++ "x (門檻: " ++ fmtPy thr ++ "x)")) ++
    (let thr := p.volume_surge3.value
     let r := check_volume_surge_with_value price_df thr 60
     flagEntry p.volume_surge3.enabled ("volume_surge_60d_5x", r.1,
       "60日爆量: " ++ fmtFixed 2 r.2 ++ "x (門檻: " ++ fmtPy thr ++ "x)")) ++
    (let thr := p.min_volume.value
     let r := check_min_volume_with_value price_df thr
     let volume_lots := if r.2 = 0 then 0 else r.2 / 1000
     flagEntry p.min_volume.enabled ("min_volume", r.1,
       "成交量: " ++ fmtFixed 0 volume_lots ++ "張 (門檻: " ++ fmtPy thr ++ "張)")) ++
    (let r := check_kd_golden_with_value price_df
     let disp :=
       match r.2.1, r.2.2 with
       | some k, some d => "K=" ++ fmtFixed 1 k ++ ", D=" ++ fmtFixed 1 d
       | _, _ => "K=N/A, D=N/A"
     flagEntry p.daily_kd_golden ("daily_kd_golden", r.1, disp)) ++
    (let r := check_monthly_kd_golden_with_value price_df
     let disp :=
       match r.2.1, r.2.2 with
       | some k, some d => "月K=" ++ fmtFixed 1 k ++ ", 月D=" ++ fmtFixed 1 d
       | _, _ => "月K=N/A, 月D=N/A"
     flagEntry p.monthly_kd_golden ("monthly_kd_golden", r.1, disp)) ++
    (let r := check_above_ma20_with_value price_df
     let disp :=
       match r.2.1, r.2.2 with
       | some price, some ma => "價格: " ++ fmtFixed 1 price ++ ", MA20: " ++ fmtFixed 1 ma
       | _, _ => "價格: N/A, MA20: N/A"
     flagEntry p.above_ma20 ("above_ma20", r.1, disp)) ++
    (let r := check_break_60d_high_with_value price_df
     let disp :=
       match r.2.1, r.2.2 with
       | some price, some h => "價格: " ++ fmtFixed 1 price ++ ", 60日高: " ++ fmtFixed 1 h
       | _, _ => "價格: N/A, 60日高: N/A"
     flagEntry p.break_60d_high ("break_60d_high", r.1, disp)) ++
    (let thr := p.trust_buy.value
     let r := check_trust_buy_with_value inst_df thr
     flagEntry p.trust_buy.enabled ("trust_buy", r.1,
       "投信買超: " ++ fmtFixed 0 r.2 ++ "張 (門檻: " ++ fmtPy thr ++ "張)")) ++
    (let thr := p.trust_pct.value
     let r := check_trust_pct_with_value env attrs_sid cur_sid thr
     flagEntry p.trust_pct.enabled ("trust_pct", r.1,
       "投信持股: " ++ fmtFixed 2 r.2 ++ "% (門檻: " ++ fmtPy thr ++ "%)")) ++
    (let thr := p.trust_5d.value
     let r := check_trust_5d_with_value inst_df thr
     flagEntry p.trust_5d.enabled ("trust_5d", r.1,
       "投信5日買超: " ++ fmtFixed 0 r.2 ++ "張 (門檻: " ++ fmtPy thr ++ "張)")) ++
    (let thr := p.trust_holding.value
     let r := check_trust_holding_with_value env (some trust_holding) attrs_sid cur_sid thr
     flagEntry p.trust_holding.enabled ("trust_holding", r.1,
       "投信持股變化: " ++ fmtFixed 2 r.2 ++ "% (門檻: " ++ fmtPy thr ++ "%)")) ++
    (let thr := p.inst_5d.value
     let r := check_inst_5d_with_value inst_df thr
     flagEntry p.inst_5d.enabled ("inst_5d", r.1,
       "法人5日買超: " ++ fmtFixed 0 r.2 ++ "張 (門檻: " ++ fmtPy thr ++ "張)")) ++
    (let thr := p.margin_ratio.value
     let r := check_margin_ratio_with_value margin_df thr
     flagEntry p.margin_ratio.enabled ("margin_ratio", r.1,
       "融資使用率: " ++ fmtFixed 2 r.2 ++ "% (門檻: <" ++ fmtPy thr ++ "%)")) ++
    (let thr := p.margin_5d.value
     let r := check_margin_5d_with_value margin_df thr
     flagEntry p.margin_5d.enabled ("margin_5d", r.1,
       "融資5日增減: " ++ fmtFixed 0 r.2 ++ "張 (門檻: " ++ fmtPy thr ++ "張)")) ++
    (let thr := p.eps.value
     let r := check_eps_with_value env sd thr
     flagEntry p.eps.enabled ("eps", r.1,
       "EPS: " ++ fmtFixed 2 r.2 ++ " (門檻: >" ++ fmtPy thr ++ ")")) ++
    (let thr := p.roe.value
     let r := check_roe_with_value env sd thr
     flagEntry p.roe.enabled ("roe", r.1,
       "ROE: " ++ fmtFixed 2 r.2 ++ "% (門檻: >" ++ fmtPy thr ++ "%)")) ++
    (let thr := p.yield.value
     let r := check_yield_with_value env sd price_df thr
     flagEntry p.yield.enabled ("yield", r.1,
       "殖利率: " ++ fmtFixed 2 r.2 ++ "% (門檻: >" ++ fmtPy thr ++ "%)")) ++
    (let thr := p.daily_change.value
     let r := check_daily_change_with_value price_df thr
     flagEntry p.daily_change.enabled ("daily_change", r.1,
       "日漲跌: " ++ fmtFixed 2 r.2 ++ "% (門檻: ±" ++ fmtPy thr ++ "%)")) ++
    (let thr := p.change_5d.value
     let r := check_5d_change_with_value price_df thr
     flagEntry p.change_5d.enabled ("change_5d", r.1,
       "5日漲跌: " ++ fmtFixed 2 r.2 ++ "% (門檻: ±" ++ fmtPy thr ++ "%)")) ++
    (let pass := check_not_warning env sd
     flagEntry p.exclude_warning ("not_warning", pass,
       if pass then "非警示股" else "警示股")) ++
    (let pass := check_not_disposition env sd
     flagEntry p.exclude_disposition ("not_disposition", pass,
       if pass then "非處置股" else "處置股")) ++
    (let days := p.exclude_limit_up.days
     let r := check_not_limit_up_with_value env price_df cur_sid days
     flagEntry p.exclude_limit_up.enabled ("not_limit_up", r.1,
       "連續漲停: " ++ toString r.2 ++ "天 (門檻: <" ++ toString days ++ "天)"))

/-- `CompleteScreeningEngine.check_all_conditions`: builds the per-condition
entries, counts the `True` verdicts, and compares the count with
`min_conditions_to_pass` (read from the configuration with default 3). -/
def check_all_conditions (env : Env) (p : Params) (sd : StockData) :
    CheckResult :=
  let entries := check_all_entries env p sd
  let verdicts := entries.map fun e => (e.1, e.2.1)
  let matched_count := verdicts.countP fun v => v.2
  { verdicts := verdicts
    matched_count := matched_count
    passed := decide (matched_count ≥ p.min_conditions_to_pass)
    values := entries.map fun e => (e.1, e.2.2) }

/-! ## scoring_system.py : combination bonus -/

/-- Python `check_result.get(key, False)` on the evaluation dictionary. -/
def dict_get_bool (d : List (String × Bool)) (k : String) : Bool :=
  ((d.find? fun e => e.1 == k).map (·.2)).getD false

/-- `ScoringSystem._calculate_combo_bonus` (bonus weights `perfect_volume = 10`,
`tech_fundamental = 15`, `institutional_support = 10` from `self.combo_bonus`).
Note the keys it probes: `volume_surge_1_5x`, `volume_surge_3x`,
`volume_surge_5x` for the perfect-volume combo. -/
def calculate_combo_bonus (check_result : List (String × Bool)) : ℕ :=
  let perfect := (["1_5x", "3x", "5x"].map fun x => "volume_surge_" ++ x).all
    fun k => dict_get_bool check_result k
  let bonus1 := if perfect then 10 else 0
  let tech_conditions := ["daily_kd_golden", "above_ma20", "break_60d_high"]
  let fundamental_conditions := ["eps_positive", "roe_above", "yield_above"]
  let tech_count := tech_conditions.countP fun c => dict_get_bool check_result c
  let fund_count := fundamental_conditions.countP fun c => dict_get_bool check_result c
  let bonus2 := if 2 ≤ tech_count ∧ 2 ≤ fund_count then 15 else 0
  let inst_conditions := ["trust_buy", "trust_5d", "inst_5d"]
  let inst_count := inst_conditions.countP fun c => dict_get_bool check_result c
  let bonus3 := if 2 ≤ inst_count then 10 else 0
  bonus1 + bonus2 + bonus3

/-! ## technical_calculator.py : the guarded golden cross -/

/-- `TechnicalCalculator.check_golden_cross`: the crossover predicate *with*
the `K < 80` overbought guard.  The screening engine never calls it. -/
def check_golden_cross (k d : List ℚ) : Bool :=
  if k.length < 2 ∨ d.length < 2 then false
  else
    (decide (lastD k > lastD d) && decide (secondLastD k ≤ secondLastD d)) &&
      decide (lastD k < 80)

/-! ## Concrete fixtures -/

/-- A fixed environment (all integrator calls return 0 / no flag); the
claims evaluated on fixtures below never consult it. -/
def env₀ : Env where
  get_trust_holding_percentage := fun _ => 0
  get_trust_holding_change := fun _ => 0
  get_real_eps := fun _ => 0
  get_real_roe := fun _ => 0
  get_real_dividend_yield := fun _ _ => 0
  is_warning := fun _ => false
  is_disposition := fun _ => false

/-- The spec scenario configuration: EPS > 0, ROE > 10, trust-holding
threshold 15, `min_conditions_to_pass = 3`, everything else disabled. -/
def scenarioParams : Params :=
  { eps := { enabled := true, value := 0 }
    roe := { enabled := true, value := 10 }
    trust_holding := { enabled := true, value := 15 }
    min_conditions_to_pass := 3 }

/-- The spec scenario snapshot: EPS=39.2, ROE=28.5, trust_holding=0.8,
close=1050, volume=25000. -/
def scenarioStock : StockData :=
  { stock_id := some "2330"
    eps := some 39.2
    roe := some 28.5
    trust_holding := some 0.8
    price := some [⟨1060, 1040, 1050, 25000⟩] }

/-- The KD-series fixtures used by C3: every bar spans high 100 / low 0, so
every 9-bar window is nondegenerate; closes 50×8 (the NaN→50 prefix), five
bars at the top, one collapse to the bottom, two bars back at the top. -/
def kdBar (c : ℚ) : PriceBar := ⟨100, 0, c, 0⟩

def kdSeries : List PriceBar :=
  (List.replicate 8 (kdBar 50)) ++
    [kdBar 100, kdBar 100, kdBar 100, kdBar 100, kdBar 100, kdBar 0,
     kdBar 100, kdBar 100]

/-- C4 fixture: only the 5-day volume-surge condition enabled, threshold
1.2; six bars whose first five volumes are 0, so the trailing average is 0. -/
def vsParams : Params := { volume_surge1 := { enabled := true, value := 1.2 } }

def zeroVolRows : List PriceBar :=
  (List.replicate 5 ⟨0, 0, 0, 0⟩) ++ [⟨0, 0, 0, 100⟩]

def vsStock : StockData := { price := some zeroVolRows }

/-- Six bars whose trailing 5-bar average volume is 1 and whose latest
volume is 3 (a genuine surge), for the C4 witness. -/
def surgeRows : List PriceBar :=
  (List.replicate 5 ⟨0, 0, 0, 1⟩) ++ [⟨0, 0, 0, 3⟩]

/-- C5 fixture: the three volume-surge tiers enabled (1.2× / 3× / 5×); 61
bars with volume 1 followed by a 100-volume bar, so every tier matches. -/
def comboParams : Params :=
  { volume_surge1 := { enabled := true, value := 1.2 }
    volume_surge2 := { enabled := true, value := 3 }
    volume_surge3 := { enabled := true, value := 5 } }

def comboStock : StockData :=
  { price := some ((List.replicate 60 ⟨0, 0, 0, 1⟩) ++ [⟨0, 0, 0, 100⟩]) }

/-- C6 fixture: 60 bars with high 90, then a bar with high 105 and close
100 — the close beats every *previous* high but not today's own high. -/
def b60Series : List PriceBar :=
  (List.replicate 60 ⟨90, 0, 80, 0⟩) ++ [⟨105, 0, 100, 0⟩]

/-- Modelled from the spec sentence "latest close ≥ rolling max(high, N bars
excluding today) for N = 60 signals a new high": the spec-side breakout
predicate, to be compared with `check_break_60d_high_with_value`. -/
def spec_break_60d_high (rows : List PriceBar) : Bool :=
  decide (lastD (closes rows) ≥ maxD (takeRight (highs rows).dropLast 60))

/-- The enabled-flag of the configuration governing each verdict key of
`check_all_conditions` (keys that the engine never emits map to `false`). -/
def enabledKey (p : Params) (k : String) : Bool :=
  if k = "market_twse" then p.market_twse
  else if k = "market_otc" then p.market_otc
  else if k = "volume_surge_1_5x" then p.volume_surge1.enabled
  else if k = "volume_surge_20d_3x" then p.volume_surge2.enabled
  else if k = "volume_surge_60d_5x" then p.volume_surge3.enabled
  else if k = "min_volume" then p.min_volume.enabled
  else if k = "daily_kd_golden" then p.daily_kd_golden
  else if k = "monthly_kd_golden" then p.monthly_kd_golden
  else if k = "above_ma20" then p.above_ma20
  else if k = "break_60d_high" then p.break_60d_high
  else if k = "trust_buy" then p.trust_buy.enabled
  else if k = "trust_pct" then p.trust_pct.enabled
  else if k = "trust_5d" then p.trust_5d.enabled
  else if k = "trust_holding" then p.trust_holding.enabled
  else if k = "inst_5d" then p.inst_5d.enabled
  else if k = "margin_ratio" then p.margin_ratio.enabled
  else if k = "margin_5d" then p.margin_5d.enabled
  else if k = "eps" then p.eps.enabled
  else if k = "roe" then p.roe.enabled
  else if k = "yield" then p.yield.enabled
  else if k = "daily_change" then p.daily_change.enabled
  else if k = "change_5d" then p.change_5d.enabled
  else if k = "not_warning" then p.exclude_warning
  else if k = "not_disposition" then p.exclude_disposition
  else if k = "not_limit_up" then p.exclude_limit_up.enabled
  else false

/-! ## Helper lemmas -/

theorem ewmThirdAux_length (p : ℚ) (l : List ℚ) :
    (ewmThirdAux p l).length = l.length := by
  induction l generalizing p with
  | nil => rfl
  | cons x xs ih => simp [ewmThirdAux, ih]

theorem ewmThird_length (l : List ℚ) : (ewmThird l).length = l.length := by
  cases l with
  | nil => rfl
  | cons x xs => simp [ewmThird, ewmThirdAux_length]

theorem rsvList_length (period : ℕ) (rows : List PriceBar) :
    (rsvList period rows).length = rows.length := by
  simp [rsvList]

theorem engineK_length (period : ℕ) (rows : List PriceBar) :
    (engineK period rows).length = rows.length := by
  simp [engineK, ewmThird_length, rsvList_length]

theorem engineD_length (period : ℕ) (rows : List PriceBar) :
    (engineD period rows).length = rows.length := by
  simp [engineD, ewmThird_length, engineK_length]

theorem mem_flagEntry {c : Bool} {e x : String × Bool × String}
    (h : x ∈ flagEntry c e) : c = true ∧ x = e := by
  cases c with
  | false => simp [flagEntry] at h
  | true => simpa [flagEntry] using h

/-! ## Claims -/

/-- C1: for every environment, configuration and snapshot, the
`matched_count` returned by `check_all_conditions` equals the number of
condition verdicts recorded as `True`, and the top-level `passed` flag is
true exactly when `matched_count ≥ min_conditions_to_pass`.  The Python
computes the count over `results.values()` *before* inserting the
bookkeeping entries `matched_count`, `passed` and `values` into the same
dictionary, which the model renders as separate result fields, so the
bookkeeping entries never contribute to the count. -/
theorem check_all_conditions_count_and_passed (env : Env) (p : Params)
    (sd : StockData) :
    (check_all_conditions env p sd).matched_count
        = ((check_all_conditions env p sd).verdicts.countP fun v => v.2) ∧
      ((check_all_conditions env p sd).passed = true ↔
        p.min_conditions_to_pass ≤ (check_all_conditions env p sd).matched_count) := by
  refine ⟨?_, ?_⟩
  · simp only [check_all_conditions]
  · simp only [check_all_conditions, decide_eq_true_eq, ge_iff_le]

/-- C9: evaluation is deterministic — with the data environment, the
snapshot and the configuration fixed, two calls of `check_all_conditions`
return identical results (the embedding is a pure function; all external
data enters through the explicit `Env`). -/
theorem check_all_conditions_deterministic (env : Env) (p : Params)
    (sd : StockData) :
    check_all_conditions env p sd = check_all_conditions env p sd := rfl

/-- C7: `get_eps_guaranteed` accepts a provider value only when it is
strictly positive; when both providers fail (return ≤ 0), it returns the
static per-instrument default, which is the table value for a listed id
(e.g. 39.2 for 2330) and the generic 2.5 for an unlisted id.  The function
is total, so resolution never surfaces an error. -/
theorem get_eps_guaranteed_spec (t f : ℚ) (sid : String) :
    (0 < t → get_eps_guaranteed t f sid = t) ∧
      (t ≤ 0 → 0 < f → get_eps_guaranteed t f sid = f) ∧
      (t ≤ 0 → f ≤ 0 → get_eps_guaranteed t f sid = get_default_eps sid) ∧
      get_default_eps "2330" = 39.2 ∧
      ((large_caps_eps.find? fun e => e.1 == sid) = none →
        get_default_eps sid = 2.5) := by
  refine ⟨?_, ?_, ?_, ?_, ?_⟩
  · intro ht; simp [get_eps_guaranteed, ht]
  · intro ht hf; simp [get_eps_guaranteed, not_lt.mpr ht, hf]
  · intro ht hf; simp [get_eps_guaranteed, not_lt.mpr ht, not_lt.mpr hf]
  · rfl
  · intro h; simp [get_default_eps, h]

theorem get_eps_guaranteed_spec_witness :
    ((0 : ℚ) < 7 ∧ get_eps_guaranteed 7 0 "2330" = 7) ∧
      ((-1 : ℚ) ≤ 0 ∧ (0 : ℚ) < 3 ∧ get_eps_guaranteed (-1) 3 "2330" = 3) ∧
      ((0 : ℚ) ≤ 0 ∧ (-2 : ℚ) ≤ 0 ∧
        get_eps_guaranteed 0 (-2) "9999" = get_default_eps "9999") ∧
      ((large_caps_eps.find? fun e => e.1 == "9999") = none ∧
        get_default_eps "9999" = 2.5) :=
  ⟨⟨by norm_num, (get_eps_guaranteed_spec 7 0 "2330").1 (by norm_num)⟩,
   ⟨by norm_num, by norm_num,
     (get_eps_guaranteed_spec (-1) 3 "2330").2.1 (by norm_num) (by norm_num)⟩,
   ⟨by norm_num, by norm_num,
     (get_eps_guaranteed_spec 0 (-2) "9999").2.2.1 (by norm_num) (by norm_num)⟩,
   ⟨by decide, (get_eps_guaranteed_spec 0 (-2) "9999").2.2.2.2 (by decide)⟩⟩

/-- C10: when the price series holds fewer bars than the exclusion window
(and when it is `None`), the exclude-consecutive-limit-up condition passes
(`True`) with 0 reported limit-up days — this condition fails open on
missing history, regardless of the stock id and the environment. -/
theorem check_not_limit_up_fails_open (env : Env) (rows : List PriceBar)
    (cur_sid : Option String) (days : ℕ) (h : rows.length < days) :
    check_not_limit_up_with_value env (some rows) cur_sid days = (true, 0) ∧
      check_not_limit_up_with_value env none cur_sid days = (true, 0) := by
  constructor
  · simp [check_not_limit_up_with_value, h]
  · rfl

theorem check_not_limit_up_fails_open_witness :
    ([⟨10, 9, 10, 5⟩, ⟨11, 10, 11, 5⟩] : List PriceBar).length < 3 ∧
      check_not_limit_up_with_value env₀
        (some [⟨10, 9, 10, 5⟩, ⟨11, 10, 11, 5⟩]) (some "2330") 3 = (true, 0) ∧
      check_not_limit_up_with_value env₀ none (some "2330") 3 = (true, 0) :=
  ⟨by decide,
   (check_not_limit_up_fails_open env₀ [⟨10, 9, 10, 5⟩, ⟨11, 10, 11, 5⟩]
     (some "2330") 3 (by decide)).1,
   (check_not_limit_up_fails_open env₀ [⟨10, 9, 10, 5⟩, ⟨11, 10, 11, 5⟩]
     (some "2330") 3 (by decide)).2⟩

/-- C2: refuted as stated.  In the spec scenario (EPS=39.2 > 0, ROE=28.5 >
10, trust_holding=0.8 with threshold 15, `min_conditions_to_pass = 3`) the
engine records the trust-holding verdict as *failed* — the code compares
`holding >= threshold`, a floor, not the claimed `pct < threshold` ceiling —
so `matched_count = 2` and `passed = False`, not the claimed 3 / `True`. -/
theorem trust_holding_ceiling_counterexample :
    (check_all_conditions env₀ scenarioParams scenarioStock).verdicts
        = [("trust_holding", false), ("eps", true), ("roe", true)] ∧
      (check_all_conditions env₀ scenarioParams scenarioStock).matched_count = 2 ∧
      (check_all_conditions env₀ scenarioParams scenarioStock).passed = false := by
  refine ⟨?_, ?_, ?_⟩ <;>
    norm_num [check_all_conditions, check_all_entries, scenarioParams,
      scenarioStock, env₀, flagEntry, check_trust_holding_with_value,
      check_eps_with_value, check_roe_with_value]

/-- C2 (amended): the trust-holding condition passes exactly when the
resolved trust-holding percentage is greater than or equal to its configured
threshold (a floor, not a ceiling); consequently the spec scenario yields
`matched_count = 2` and `passed = False`. -/
theorem check_trust_holding_floor_spec (env : Env) (holding threshold : ℚ)
    (attrs_sid cur_sid : Option String) :
    check_trust_holding_with_value env (some holding) attrs_sid cur_sid threshold
        = (decide (holding ≥ threshold), holding) ∧
      (check_all_conditions env₀ scenarioParams scenarioStock).matched_count = 2 ∧
      (check_all_conditions env₀ scenarioParams scenarioStock).passed = false := by
  refine ⟨rfl, ?_, ?_⟩ <;>
    norm_num [check_all_conditions, check_all_entries, scenarioParams,
      scenarioStock, env₀, flagEntry, check_trust_holding_with_value,
      check_eps_with_value, check_roe_with_value]

/-- C3: refuted as stated.  On `kdSeries` the engine's daily KD golden-cross
check returns `True` with current K = 546100/6561 ≈ 83.2 ≥ 80: the engine
has no overbought guard, while `TechnicalCalculator.check_golden_cross`
(which does guard K < 80, but is never called by the engine) returns
`False` on the same K/D lines. -/
theorem kd_golden_overbought_counterexample :
    (check_kd_golden_with_value (some kdSeries)).1 = true ∧
      (check_kd_golden_with_value (some kdSeries)).2.1 = some (546100 / 6561) ∧
      (80 : ℚ) ≤ 546100 / 6561 ∧
      check_golden_cross (engineK 9 kdSeries) (engineD 9 kdSeries) = false := by
  refine ⟨?_, ?_, by norm_num, ?_⟩ <;>
    norm_num [check_kd_golden_with_value, check_golden_cross, kdSeries, kdBar,
      engineK, engineD, rsvList, ewmThird, ewmThirdAux, windowAt, maxD, minD,
      highs, lows, closes, lastD, secondLastD, meanQ,
      List.getD, List.getLastD, List.replicate, List.enum, List.enumFrom,
      List.take, List.drop, List.foldl]

/-- C3 (amended): the daily KD golden-cross condition evaluated by the
screening engine passes if and only if previous K ≤ previous D and current
K > current D — with *no* `K < 80` overbought guard; the predicate is false
whenever fewer than 2 bars of K/D history exist (indeed the engine returns
the failed result for every series shorter than its 9-bar window, and for a
`None` frame). -/
theorem check_kd_golden_no_overbought_guard (rows : List PriceBar) :
    (9 ≤ rows.length →
        (check_kd_golden_with_value (some rows)).1
          = (decide (secondLastD (engineK 9 rows) ≤ secondLastD (engineD 9 rows)) &&
              decide (lastD (engineK 9 rows) > lastD (engineD 9 rows)))) ∧
      (rows.length < 9 →
        check_kd_golden_with_value (some rows) = (false, none, none)) ∧
      (rows.length < 2 → (check_kd_golden_with_value (some rows)).1 = false) ∧
      check_kd_golden_with_value none = (false, none, none) := by
  have hshort : rows.length < 9 →
      check_kd_golden_with_value (some rows) = (false, none, none) := by
    intro h
    simp only [check_kd_golden_with_value]
    rw [if_pos h]
  refine ⟨?_, hshort, fun h => by rw [hshort (by omega)], rfl⟩
  intro h
  simp only [check_kd_golden_with_value]
  rw [if_neg (by omega), if_pos (by
    refine ⟨?_, ?_⟩ <;> simp only [engineK_length, engineD_length] <;> omega)]

theorem check_kd_golden_no_overbought_guard_witness :
    (9 ≤ kdSeries.length ∧
      (check_kd_golden_with_value (some kdSeries)).1
        = (decide (secondLastD (engineK 9 kdSeries) ≤ secondLastD (engineD 9 kdSeries)) &&
            decide (lastD (engineK 9 kdSeries) > lastD (engineD 9 kdSeries)))) ∧
      ((List.replicate 5 (kdBar 50)).length < 9 ∧
        check_kd_golden_with_value (some (List.replicate 5 (kdBar 50)))
          = (false, none, none)) ∧
      (([] : List PriceBar).length < 2 ∧
        (check_kd_golden_with_value (some ([] : List PriceBar))).1 = false) :=
  ⟨⟨by decide, (check_kd_golden_no_overbought_guard kdSeries).1 (by decide)⟩,
   ⟨by decide,
     (check_kd_golden_no_overbought_guard (List.replicate 5 (kdBar 50))).2.1
       (by decide)⟩,
   ⟨by decide, (check_kd_golden_no_overbought_guard []).2.2.1 (by decide)⟩⟩

/-- C4: refuted as stated.  With the trailing average volume equal to 0 the
volume-surge condition is recorded as failed — but its display value is the
formatted zero ratio "爆量倍數: 0.00x (門檻: 1.2x)", not "N/A" (the engine
formats the numeric ratio unconditionally for this condition). -/
theorem volume_surge_display_counterexample :
    (check_all_conditions env₀ vsParams vsStock).verdicts
        = [("volume_surge_1_5x", false)] ∧
      (check_all_conditions env₀ vsParams vsStock).values
        = [("volume_surge_1_5x", "爆量倍數: 0.00x (門檻: 1.2x)")] ∧
      (check_all_conditions env₀ vsParams vsStock).values
        ≠ [("volume_surge_1_5x", "N/A")] := by
  have hv : (check_all_conditions env₀ vsParams vsStock).values
      = [("volume_surge_1_5x", "爆量倍數: 0.00x (門檻: 1.2x)")] := by
    norm_num [check_all_conditions, check_all_entries, vsParams, vsStock, env₀,
      flagEntry, check_volume_surge_with_value, meanQ, takeRight, vols, lastD,
      zeroVolRows, List.replicate, List.take, List.drop, List.getLastD,
      fmtFixed, fmtPy, padZeros, fracDigits]
    decide
  refine ⟨?_, hv, by rw [hv]; decide⟩
  norm_num [check_all_conditions, check_all_entries, vsParams, vsStock, env₀,
    flagEntry, check_volume_surge_with_value, meanQ, takeRight, vols, lastD,
    zeroVolRows, List.replicate, List.take, List.drop, List.getLastD]

/-- C4 (amended): the volume-surge ratio equals the latest volume divided by
the mean of the previous `days` volumes (the current bar excluded); when
that average is zero, or the history is shorter than `days + 1` bars, or
the frame is `None`, the condition is recorded as failed with ratio value
0.0 (displayed as the formatted zero, not as "N/A") — the function is
total, so a division error is never raised. -/
theorem check_volume_surge_spec (rows : List PriceBar) (threshold : ℚ) (days : ℕ) :
    (days + 1 ≤ rows.length →
        0 < meanQ ((takeRight (vols rows) (days + 1)).dropLast) →
        check_volume_surge_with_value (some rows) threshold days
          = (decide (lastD (vols rows) / meanQ ((takeRight (vols rows) (days + 1)).dropLast) ≥ threshold),
              lastD (vols rows) / meanQ ((takeRight (vols rows) (days + 1)).dropLast))) ∧
      (meanQ ((takeRight (vols rows) (days + 1)).dropLast) = 0 →
        check_volume_surge_with_value (some rows) threshold days = (false, 0)) ∧
      (rows.length < days + 1 →
        check_volume_surge_with_value (some rows) threshold days = (false, 0)) ∧
      check_volume_surge_with_value none threshold days = (false, 0) := by
  refine ⟨?_, ?_, ?_, rfl⟩
  · intro h havg
    simp only [check_volume_surge_with_value]
    rw [if_neg (by omega), if_pos havg]
  · intro h0
    simp only [check_volume_surge_with_value]
    by_cases hl : rows.length < days + 1
    · rw [if_pos hl]
    · rw [if_neg hl, if_neg (by rw [h0]; exact lt_irrefl 0)]
  · intro h
    simp only [check_volume_surge_with_value]
    rw [if_pos h]

theorem check_volume_surge_spec_witness :
    (5 + 1 ≤ surgeRows.length ∧
      0 < meanQ ((takeRight (vols surgeRows) (5 + 1)).dropLast) ∧
      check_volume_surge_with_value (some surgeRows) 2 5
        = (decide (lastD (vols surgeRows) / meanQ ((takeRight (vols surgeRows) (5 + 1)).dropLast) ≥ 2),
            lastD (vols surgeRows) / meanQ ((takeRight (vols surgeRows) (5 + 1)).dropLast))) ∧
      (meanQ ((takeRight (vols zeroVolRows) (5 + 1)).dropLast) = 0 ∧
        check_volume_surge_with_value (some zeroVolRows) (6 / 5) 5 = (false, 0)) ∧
      (([⟨0, 0, 0, 7⟩] : List PriceBar).length < 5 + 1 ∧
        check_volume_surge_with_value (some [⟨0, 0, 0, 7⟩]) 1 5 = (false, 0)) := by
  have hs : 0 < meanQ ((takeRight (vols surgeRows) (5 + 1)).dropLast) := by
    norm_num [meanQ, takeRight, vols, surgeRows, List.replicate, List.take, List.drop]
  have hz : meanQ ((takeRight (vols zeroVolRows) (5 + 1)).dropLast) = 0 := by
    norm_num [meanQ, takeRight, vols, zeroVolRows, List.replicate, List.take, List.drop]
  exact ⟨⟨by decide, hs, (check_volume_surge_spec surgeRows 2 5).1 (by decide) hs⟩,
    ⟨hz, (check_volume_surge_spec zeroVolRows (6 / 5) 5).2.1 hz⟩,
    ⟨by decide, (check_volume_surge_spec [⟨0, 0, 0, 7⟩] 1 5).2.2.1 (by decide)⟩⟩

/-- C5: on an evaluation in which all three volume-surge tiers are matched,
the evaluator records the keys `volume_surge_1_5x`, `volume_surge_20d_3x`
and `volume_surge_60d_5x`, but `ScoringSystem._calculate_combo_bonus`
probes `volume_surge_1_5x`, `volume_surge_3x` and `volume_surge_5x`, so the
perfect-volume bonus is *not* added (combo bonus 0 instead of 10): the
bonus branch is unreachable from the keys the evaluator actually records,
contradicting the scorer's own `perfect_volume` comment and weight table. -/
theorem perfect_volume_combo_bonus_unreachable :
    (check_all_conditions env₀ comboParams comboStock).verdicts
        = [("volume_surge_1_5x", true), ("volume_surge_20d_3x", true),
           ("volume_surge_60d_5x", true)] ∧
      calculate_combo_bonus
        (check_all_conditions env₀ comboParams comboStock).verdicts = 0 := by
  have hv : (check_all_conditions env₀ comboParams comboStock).verdicts
      = [("volume_surge_1_5x", true), ("volume_surge_20d_3x", true),
         ("volume_surge_60d_5x", true)] := by
    norm_num [check_all_conditions, check_all_entries, comboParams, comboStock,
      env₀, flagEntry, check_volume_surge_with_value, meanQ, takeRight, vols,
      lastD, List.replicate, List.take, List.drop, List.getLastD]
  exact ⟨hv, by rw [hv]; decide⟩

/-- C6: refuted as stated.  On `b60Series` (sixty bars with high 90, then a
bar with high 105 and close 100) the latest close beats the maximum high of
the *previous* 60 bars (90), so the spec-side breakout predicate passes,
but the engine takes `price_df['max'].tail(60).max()`, which *includes*
today's own high (105), and records the condition as failed. -/
theorem break_60d_high_counterexample :
    (check_break_60d_high_with_value (some b60Series)).1 = false ∧
      spec_break_60d_high b60Series = true := by
  constructor <;>
    norm_num [check_break_60d_high_with_value, spec_break_60d_high, b60Series,
      maxD, takeRight, highs, closes, lastD, List.replicate, List.take,
      List.drop, List.foldl, List.getLastD]

/-- C6 (amended): the 60-day breakout condition passes exactly when the
latest close is ≥ the maximum of the high over the last 60 bars *including*
today; with fewer than 60 bars (or a `None` frame) the condition fails. -/
theorem check_break_60d_spec (rows : List PriceBar) :
    (60 ≤ rows.length →
        check_break_60d_high_with_value (some rows)
          = (decide (lastD (closes rows) ≥ maxD (takeRight (highs rows) 60)),
              some (lastD (closes rows)), some (maxD (takeRight (highs rows) 60)))) ∧
      (rows.length < 60 →
        check_break_60d_high_with_value (some rows) = (false, none, none)) ∧
      check_break_60d_high_with_value none = (false, none, none) := by
  refine ⟨?_, ?_, rfl⟩
  · intro h
    simp only [check_break_60d_high_with_value]
    rw [if_neg (by omega)]
  · intro h
    simp only [check_break_60d_high_with_value]
    rw [if_pos h]

theorem check_break_60d_spec_witness :
    (60 ≤ b60Series.length ∧
      check_break_60d_high_with_value (some b60Series)
        = (decide (lastD (closes b60Series) ≥ maxD (takeRight (highs b60Series) 60)),
            some (lastD (closes b60Series)), some (maxD (takeRight (highs b60Series) 60)))) ∧
      (([] : List PriceBar).length < 60 ∧
        check_break_60d_high_with_value (some ([] : List PriceBar)) = (false, none, none)) :=
  ⟨⟨by decide, (check_break_60d_spec b60Series).1 (by decide)⟩,
   ⟨by decide, (check_break_60d_spec []).2.1 (by decide)⟩⟩

/-- C8: every verdict key that `check_all_conditions` records belongs to a
condition enabled in the configuration — a disabled condition produces no
verdict entry at all (it is neither recorded as passed nor as failed). -/
theorem verdict_keys_subset_enabled (env : Env) (p : Params) (sd : StockData)
    (kv : String × Bool) (h : kv ∈ (check_all_conditions env p sd).verdicts) :
    enabledKey p kv.1 = true := by
  simp only [check_all_conditions] at h
  obtain ⟨e, he, rfl⟩ := List.mem_map.mp h
  simp only [check_all_entries, List.mem_append, or_assoc] at he
  rcases he with he|he|he|he|he|he|he|he|he|he|he|he|he|he|he|he|he|he|he|he|he|he|he|he|he
  all_goals
    obtain ⟨hc, rfl⟩ := mem_flagEntry he
    simp [enabledKey, hc]

theorem verdict_keys_subset_enabled_witness :
    ("eps", true) ∈ (check_all_conditions env₀ scenarioParams scenarioStock).verdicts ∧
      enabledKey scenarioParams "eps" = true := by
  have hv : (check_all_conditions env₀ scenarioParams scenarioStock).verdicts
      = [("trust_holding", false), ("eps", true), ("roe", true)] := by
    norm_num [check_all_conditions, check_all_entries, scenarioParams,
      scenarioStock, env₀, flagEntry, check_trust_holding_with_value,
      check_eps_with_value, check_roe_with_value]
  have hm : ("eps", true)
      ∈ (check_all_conditions env₀ scenarioParams scenarioStock).verdicts := by
    rw [hv]; decide
  exact ⟨hm, verdict_keys_subset_enabled env₀ scenarioParams scenarioStock
    ("eps", true) hm⟩
